import Mathlib

/-!
Shallow embedding of the asynchronous job core of this repository:
the job store (src/services/jobStore.js), the webhook signature verifier and
dispatcher (src/webhooks/openaiWebhook.js), the cancellation and status-query
handlers (src/handlers/cancelJob.js, src/handlers/getJobStatus.js) and the
retention sweep (src/handlers/cleanupJobs.js).

JavaScript values that flow through these modules are modelled by `JValue`
(JSON values: the code only ever persists JSON-serialisable data, and
`safeClone` is a JSON round trip, hence the identity here).  Machine time is
an explicit `Int` parameter (seconds for signature tolerance checks,
an abstract timestamp for record fields).  The HMAC-SHA256 primitive from
`node:crypto` is an explicit function parameter: none of the verified
properties depend on its internals, only on how the code routes keys,
canonical strings and candidate signatures into it.  Header values are
modelled as strings (the array-normalisation in `normaliseHeaderValue` is the
identity on that model).
-/

namespace RagCore

/-- JSON values, the data model of everything the job core persists. -/
inductive JValue where
  | null : JValue
  | bool : Bool → JValue
  | num : Int → JValue
  | str : String → JValue
  | arr : List JValue → JValue
  | obj : List (String × JValue) → JValue

/-- JavaScript truthiness on JSON values. -/
def jsTruthy : JValue → Bool
  | .null => false
  | .bool b => b
  | .num n => n != 0
  | .str s => s != ""
  | .arr _ => true
  | .obj _ => true

/-- Lookup of the last binding of a key, which is how a JavaScript object
literal built from a (possibly duplicated) field list behaves. -/
def lookupLast {α : Type} : List (String × α) → String → Option α
  | [], _ => none
  | (k', v) :: rest, k =>
    match lookupLast rest k with
    | some r => some r
    | none => if k' = k then some v else none

/-- Property access `v.k` (undefined, i.e. `none`, on non-objects). -/
def jsGet (v : JValue) (k : String) : Option JValue :=
  match v with
  | .obj fs => lookupLast fs k
  | _ => none

/-- Optional chaining `v?.k`. -/
def jsGetOpt (v : Option JValue) (k : String) : Option JValue :=
  match v with
  | some w => jsGet w k
  | none => none

/-- JavaScript `a || b` on possibly-undefined values. -/
def jsOrOpt (a b : Option JValue) : Option JValue :=
  match a with
  | some v => if jsTruthy v then some v else b
  | none => b

/-- Remove every binding of a key from an object's field list. -/
def removeKey {α : Type} : List (String × α) → String → List (String × α)
  | [], _ => []
  | (k', v) :: rest, k =>
    if k' = k then removeKey rest k else (k', v) :: removeKey rest k

/-- Drop a field from an object, the effect of rest-destructuring
`const (dropped, ...rest) = o`. -/
def objRemove (v : JValue) (k : String) : JValue :=
  match v with
  | .obj fs => .obj (removeKey fs k)
  | w => w

/-- An empty string is falsy, other strings truthy. -/
def truthyS : Option String → Option String
  | some s => if s = "" then none else some s
  | none => none

/- ### String helpers (JavaScript string semantics on char lists) -/

def isWsChar (c : Char) : Bool :=
  c = ' ' || c = '\t' || c = '\n' || c = '\r'

def trimList (cs : List Char) : List Char :=
  ((cs.dropWhile isWsChar).reverse.dropWhile isWsChar).reverse

/-- JavaScript `String.prototype.trim`. -/
def jsTrim (s : String) : String := ⟨trimList s.data⟩

/-- JavaScript `String.prototype.split` with a one-char separator:
`splitChars ',' "a,b"` is `["a","b"]` and `splitChars ',' ""` is `[""]`. -/
def splitChars (sep : Char) : List Char → List (List Char)
  | [] => [[]]
  | c :: rest =>
    let r := splitChars sep rest
    if c = sep then [] :: r
    else
      match r with
      | h :: t => (c :: h) :: t
      | [] => [[c]]

def jsSplit (sep : Char) (s : String) : List String :=
  (splitChars sep s.data).map (fun cs => (⟨cs⟩ : String))

/-- Split at the first occurrence of a char: the `indexOf` / `slice` idiom
used throughout the signature parsers.  `none` when the char is absent. -/
def splitFirst (c : Char) : List Char → Option (List Char × List Char)
  | [] => none
  | x :: rest =>
    if x = c then some ([], rest)
    else
      match splitFirst c rest with
      | some (a, b) => some (x :: a, b)
      | none => none

def startsWithChar (s : String) (c : Char) : Bool :=
  match s.data with
  | x :: _ => x = c
  | [] => false

def lowerStr (s : String) : String := ⟨s.data.map Char.toLower⟩

/-- Decimal rendering of a `Nat` (fuel-based, structurally recursive). -/
def natDigits : Nat → Nat → List Char
  | 0, _ => []
  | fuel + 1, n =>
    if n < 10 then [Char.ofNat (48 + n)]
    else natDigits fuel (n / 10) ++ [Char.ofNat (48 + n % 10)]

def natToStr (n : Nat) : String := ⟨natDigits (n + 1) n⟩

/-- Decimal rendering of an `Int`, the template-literal coercion `${n}`. -/
def intToStr : Int → String
  | .ofNat n => natToStr n
  | .negSucc m => "-" ++ natToStr (m + 1)

def digitVal (c : Char) : Option Nat :=
  if '0' ≤ c ∧ c ≤ '9' then some (c.toNat - 48) else none

def digitsToNat : List Char → Option Nat
  | [] => none
  | cs => go cs 0
where
  go : List Char → Nat → Option Nat
    | [], acc => some acc
    | c :: rest, acc =>
      match digitVal c with
      | some d => go rest (acc * 10 + d)
      | none => none

/-- The JavaScript `Number(...)` coercion, restricted to the decimal-integer
numerals that occur as webhook timestamps: the empty (or all-whitespace)
string is `0`, an optionally signed digit string is its value, and anything
else is `NaN`, modelled as `none`. -/
def jsNumber (s : String) : Option Int :=
  match trimList s.data with
  | [] => some 0
  | '-' :: ds => (digitsToNat ds).map (fun n => -(n : Int))
  | '+' :: ds => (digitsToNat ds).map (fun n => (n : Int))
  | ds => (digitsToNat ds).map (fun n => (n : Int))

/-- Byte view of a string as used for HMAC keys and payloads (the inputs the
code signs are ASCII, where this agrees with UTF-8). -/
def strBytes (s : String) : List Nat := s.data.map Char.toNat

/- ### base64 / hex decoding (Buffer.from(s, 'base64' / 'hex')) -/

def b64Val (c : Char) : Option Nat :=
  if 'A' ≤ c ∧ c ≤ 'Z' then some (c.toNat - 65)
  else if 'a' ≤ c ∧ c ≤ 'z' then some (c.toNat - 97 + 26)
  else if '0' ≤ c ∧ c ≤ '9' then some (c.toNat - 48 + 52)
  else if c = '+' ∨ c = '-' then some 62
  else if c = '/' ∨ c = '_' then some 63
  else none

def b64Bytes : List Nat → List Nat
  | a :: b :: c :: d :: rest =>
    (a * 4 + b / 16) :: ((b % 16) * 16 + c / 4) :: ((c % 4) * 64 + d) :: b64Bytes rest
  | [a, b, c] => [a * 4 + b / 16, (b % 16) * 16 + c / 4]
  | [a, b] => [a * 4 + b / 16]
  | _ => []

/-- Base64 decoding (standard and url-safe alphabets, `=` padding ignored).
Node's decoder never throws; strings containing characters outside the
alphabet decode leniently there, modelled here as `none` and treated by the
callers exactly as a decode that cannot match. -/
def base64Decode (s : String) : Option (List Nat) :=
  ((s.data.filter (fun c => c ≠ '=')).mapM b64Val).map b64Bytes

def hexVal (c : Char) : Option Nat :=
  if '0' ≤ c ∧ c ≤ '9' then some (c.toNat - 48)
  else if 'a' ≤ c ∧ c ≤ 'f' then some (c.toNat - 97 + 10)
  else if 'A' ≤ c ∧ c ≤ 'F' then some (c.toNat - 65 + 10)
  else none

def hexPairs : List Char → Option (List Nat)
  | [] => some []
  | a :: b :: rest =>
    match hexVal a, hexVal b, hexPairs rest with
    | some x, some y, some r => some ((x * 16 + y) :: r)
    | _, _, _ => none
  | [_] => none

/-- Hex decoding of an even-length hex string. -/
def hexDecode (s : String) : Option (List Nat) := hexPairs s.data

/- ### Header handling (src/webhooks/openaiWebhook.js lines 141-155, 560-566) -/

/-- Header sets, as received by the web trigger. -/
abbrev Headers := List (String × String)

/-- Model of `normaliseHeaders`: lowercases every key; duplicate lowercased
keys behave like JavaScript object assignment (last wins) because lookups go
through `lookupLast`. -/
def normaliseHeaders (hs : Headers) : Headers :=
  hs.map (fun p => (lowerStr p.1, p.2))

/-- Plain header access `headers[name]`. -/
def hGet (hs : Headers) (name : String) : Option String :=
  lookupLast hs name

/-- Model of `normaliseSignatureHeader`: the first candidate name bound to a
truthy (non-empty) value.  Also models the `a || b || c` header fallback
chains, whose only observable difference (a final falsy value) is handled
identically by every caller. -/
def findTruthyHeader (hs : Headers) : List String → Option String
  | [] => none
  | n :: rest =>
    match hGet hs n with
    | some v => if v = "" then findTruthyHeader hs rest else some v
    | none => findTruthyHeader hs rest

/- ### Signature parsing (src/webhooks/openaiWebhook.js lines 192-348) -/

/-- State of `parseOpenAiSignature`'s forEach loop: the last `t=` assignment
(`none` while unassigned, `some none` when the value was not numeric) and the
accumulated `v*=` signature values. -/
def openAiFold : List String → Option (Option Int) → List String →
    Option (Option Int) × List String
  | [], t, sigs => (t, sigs)
  | p :: rest, t, sigs =>
    match splitFirst '=' p.data with
    | none => openAiFold rest t sigs
    | some (k, v) =>
      let key : String := ⟨k⟩
      let value : String := ⟨v⟩
      if key = "" ∨ value = "" then openAiFold rest t sigs
      else if key = "t" then openAiFold rest (some (jsNumber value)) sigs
      else if startsWithChar key 'v' then openAiFold rest t (sigs ++ [value])
      else openAiFold rest t sigs

/-- Model of `parseOpenAiSignature`: header format `t=<secs>,v1=<sig>,...`;
`null` when the header is blank, the timestamp is missing, zero or
non-numeric, or no versioned signature is present. -/
def parseOpenAiSignature (header : String) : Option (Int × List String) :=
  if jsTrim header = "" then none
  else
    let parts := (splitChars ',' header.data).map (fun cs => (⟨trimList cs⟩ : String))
    match openAiFold parts none [] with
    | (some (some tv), sigs) =>
      if tv = 0 ∨ sigs = [] then none else some (tv, sigs)
    | _ => none

/-- Model of `parseSvixSignature`: every comma-separated `k=v` part with
non-empty key and value contributes its value; `null` when the header is
blank or contributes nothing. -/
def parseSvixSignature (header : String) : Option (List String) :=
  if jsTrim header = "" then none
  else
    let parts := (splitChars ',' header.data).map (fun cs => (⟨trimList cs⟩ : String))
    let sigs := parts.filterMap (fun p =>
      match splitFirst '=' p.data with
      | none => none
      | some (k, v) =>
        if k = [] ∨ v = [] then none else some ((⟨v⟩ : String)))
    if sigs = [] then none else some sigs

/-- The indexed loop of `parseStandardSignature`: `v*=<sig>` segments
contribute their value; a bare `v*` segment followed by a non-`v` segment
contributes that next segment and skips it. -/
def stdCollect : List String → List String
  | [] => []
  | seg :: rest =>
    if seg.data.any (fun c => c = '=') then
      match splitFirst '=' seg.data with
      | some (k, v) =>
        let key : String := ⟨trimList k⟩
        let value : String := ⟨trimList v⟩
        if key ≠ "" ∧ startsWithChar key 'v' ∧ value ≠ "" then
          value :: stdCollect rest
        else stdCollect rest
      | none => stdCollect rest
    else if startsWithChar seg 'v' then
      match rest with
      | next :: rest' =>
        if next ≠ "" ∧ ¬ startsWithChar next 'v' then next :: stdCollect rest'
        else stdCollect (next :: rest')
      | [] => []
    else stdCollect rest

/-- Model of `parseStandardSignature` (unbranded `webhook-signature` header):
`v1=<sig>` pairs or interleaved `v1 <sig>` tokens. -/
def parseStandardSignature (header : String) : Option (List String) :=
  if jsTrim header = "" then none
  else
    let segments :=
      ((splitChars ',' header.data).map (fun cs => (⟨trimList cs⟩ : String))).filter
        (fun s => s ≠ "")
    if segments = [] then none
    else
      let sigs := stdCollect segments
      if sigs = [] then none else some sigs

/- ### Signature comparison (src/webhooks/openaiWebhook.js lines 252-302) -/

/-- Model of `decodeSignatureCandidate`: try base64 then hex, returning the
first decoding whose byte length matches the digest's. -/
def decodeSignatureCandidate (signature : String) (expectedLength : Nat) :
    Option (List Nat) :=
  if signature = "" then none
  else
    match base64Decode signature with
    | some d =>
      if d.length = expectedLength then some d
      else
        match hexDecode signature with
        | some h => if h.length = expectedLength then some h else none
        | none => none
    | none =>
      match hexDecode signature with
      | some h => if h.length = expectedLength then some h else none
      | none => none

/-- The HMAC-SHA256 primitive of `node:crypto`, abstracted: key bytes and
payload string to digest bytes.  Every theorem below holds for an arbitrary
such function. -/
def Hmac := List Nat → String → List Nat

/-- Model of `matchesSignature`: the digest over the payload equals some
candidate signature, decoded as base64 or hex with matching length
(`timingSafeEqual` is byte-list equality). -/
def matchesSignature (hmac : Hmac) (secret : List Nat) (payload : String)
    (signatures : List String) : Bool :=
  let computed := hmac secret payload
  signatures.any (fun signature =>
    match decodeSignatureCandidate signature computed.length with
    | some provided => provided == computed
    | none => false)

/-- Model of `deriveStandardSecretKey`: strip a `whsec_` prefix and
base64-decode; `null` when the key decodes empty. -/
def stripWhsec (s : String) : String :=
  match s.data with
  | 'w' :: 'h' :: 's' :: 'e' :: 'c' :: '_' :: rest => ⟨rest⟩
  | _ => s

def deriveStandardSecretKey (secret : String) : Option (List Nat) :=
  match base64Decode (stripWhsec secret) with
  | some key => if key = [] then none else some key
  | none => none

/- ### The three verification schemes (src/webhooks/openaiWebhook.js 386-537) -/

def SIGNATURE_TOLERANCE_SECONDS : Nat := 300

/-- The OpenAI branch of `unwrapWebhookEvent` (lines 386-414): signs
`"{timestamp}.{rawBody}"` with the raw secret string; parse or recency
failures throw, a signature mismatch merely leaves the payload unverified. -/
def tryOpenAiScheme (hmac : Hmac) (now : Int) (secret rawBody header : String) :
    Except String Bool :=
  match parseOpenAiSignature header with
  | none => .error "Malformed OpenAI webhook signature header."
  | some (timestamp, signatures) =>
    if (now - timestamp).natAbs > SIGNATURE_TOLERANCE_SECONDS then
      .error "OpenAI webhook timestamp outside the allowed tolerance."
    else
      .ok (matchesSignature hmac (strBytes secret)
        (intToStr timestamp ++ "." ++ rawBody) signatures)

/-- The Svix branch (lines 416-483): needs `svix-id` and a timestamp header;
signs `"{id}.{timestamp}.{rawBody}"` with the base64-decoded secret (a
`whsec_` prefix stripped); candidates are decoded as base64 only. -/
def trySvixScheme (hmac : Hmac) (now : Int) (secret rawBody : String)
    (headers : Headers) (header : String) : Except String Bool :=
  let parsed := parseSvixSignature header
  let timestampHeader :=
    findTruthyHeader headers ["svix-timestamp", "x-openai-timestamp", "openai-timestamp"]
  let svixIdHeader := truthyS (hGet headers "svix-id")
  match parsed, timestampHeader, svixIdHeader with
  | some signatures, some tsH, some idH =>
    match jsNumber tsH with
    | none => .error "Invalid Svix webhook timestamp."
    | some timestamp =>
      if (now - timestamp).natAbs > SIGNATURE_TOLERANCE_SECONDS then
        .error "Svix webhook timestamp outside the allowed tolerance."
      else
        let key := (base64Decode (stripWhsec secret)).getD []
        if key = [] then .error "Decoded Svix webhook secret is empty."
        else
          let signedPayload := idH ++ "." ++ tsH ++ "." ++ rawBody
          let computed := hmac key signedPayload
          .ok (signatures.any (fun signature =>
            match base64Decode signature with
            | some provided =>
              provided.length == computed.length && provided == computed
            | none => false))
  | _, _, _ => .error "Malformed Svix webhook signature headers."

/-- The Standard branch (lines 485-537): needs `webhook-id` and a timestamp
header; signs `"{id}.{timestamp}.{rawBody}"` with `deriveStandardSecretKey`;
candidates are decoded as base64 or hex via `matchesSignature`. -/
def tryStandardScheme (hmac : Hmac) (now : Int) (secret rawBody : String)
    (headers : Headers) (header : String) (webhookIdHeader : Option String) :
    Except String Bool :=
  let parsed := parseStandardSignature header
  let timestampHeader :=
    findTruthyHeader headers
      ["webhook-timestamp", "svix-timestamp", "x-openai-timestamp", "openai-timestamp"]
  match parsed, timestampHeader, truthyS webhookIdHeader with
  | some signatures, some tsH, some idH =>
    match jsNumber tsH with
    | none => .error "Invalid Standard webhook timestamp."
    | some timestamp =>
      if (now - timestamp).natAbs > SIGNATURE_TOLERANCE_SECONDS then
        .error "Standard webhook timestamp outside the allowed tolerance."
      else
        let signedPayload := idH ++ "." ++ tsH ++ "." ++ rawBody
        match deriveStandardSecretKey secret with
        | none => .error "Invalid Standard webhook secret."
        | some secretKey =>
          .ok (matchesSignature hmac secretKey signedPayload signatures)
  | _, _, _ => .error "Malformed Standard webhook signature headers."

/-- The verification portion of `unwrapWebhookEvent` (lines 350-544): schemes
are attempted in order; a thrown error aborts, an unverified result falls
through to the next present scheme, and an unverified end state throws. -/
def verifyWebhookSignature (hmac : Hmac) (now : Int) (rawBody : String)
    (headers : Headers) (secret : String) : Except String Unit :=
  let openAiSignatureHeader :=
    findTruthyHeader headers ["x-openai-signature", "openai-signature"]
  let svixSignatureHeader := findTruthyHeader headers ["svix-signature"]
  let standardSignatureHeader := findTruthyHeader headers ["webhook-signature"]
  let webhookIdHeader := findTruthyHeader headers ["webhook-id"]
  if openAiSignatureHeader = none ∧ svixSignatureHeader = none ∧
      standardSignatureHeader = none then
    .error "Missing webhook signature headers."
  else
    let step1 : Except String Bool :=
      match openAiSignatureHeader with
      | some h => tryOpenAiScheme hmac now secret rawBody h
      | none => .ok false
    match step1 with
    | .error e => .error e
    | .ok v1 =>
      let step2 : Except String Bool :=
        if v1 then .ok true
        else
          match svixSignatureHeader with
          | some h => trySvixScheme hmac now secret rawBody headers h
          | none => .ok false
      match step2 with
      | .error e => .error e
      | .ok v2 =>
        let step3 : Except String Bool :=
          if v2 then .ok true
          else
            match standardSignatureHeader with
            | some h =>
              tryStandardScheme hmac now secret rawBody headers h webhookIdHeader
            | none => .ok false
        match step3 with
        | .error e => .error e
        | .ok v3 =>
          if v3 then .ok () else .error "Webhook signature verification failed."

/-- Model of `unwrapWebhookEvent`: verification followed by body parsing.
`JSON.parse` is abstracted as the `jsonParse` parameter (`none` models a
parse exception). -/
def unwrapWebhookEvent (hmac : Hmac) (jsonParse : String → Option JValue)
    (now : Int) (rawBody : String) (headers : Headers) (secret : String) :
    Except String JValue :=
  match verifyWebhookSignature hmac now rawBody headers secret with
  | .error e => .error e
  | .ok _ =>
    match jsonParse rawBody with
    | some parsed => .ok parsed
    | none => .error "Invalid webhook payload."

/- ### Job store (src/services/jobStore.js) -/

/-- Persisted job metadata.  Fields a record may lack (the minimal shell
synthesised by `updateJobRecord` has only `jobId`, `createdAt` and
`processedWebhookIds`) are `Option`s; `result` and `error` collapse JSON
`null` and absence, which the code never distinguishes for them.  Timestamps
(`nowIso()`) are abstract `Int` instants. -/
structure JobRecord where
  jobId : String
  jobType : Option String := none
  status : Option String := none
  createdAt : Int
  updatedAt : Option Int := none
  expiresAt : Option Int := none
  invoker : Option JValue := none
  request : Option JValue := none
  llmCharacters : Option JValue := none
  vectorStats : Option JValue := none
  auxiliaryData : Option (List (String × JValue)) := none
  result : Option JValue := none
  error : Option JValue := none
  processedWebhookIds : List String := []
  logs : List String := []

/-- Forge Storage restricted to the job-key namespace: an association list
from full storage keys to records, later writes shadowing earlier ones. -/
abbrev Store := List (String × JobRecord)

def buildJobKey (jobId : String) : String := "async-job:" ++ jobId

/-- Model of `getJobRecord` / `storage.get`. -/
def storeGet (store : Store) (jobId : String) : Option JobRecord :=
  lookupLast store (buildJobKey jobId)

/-- Model of `storage.set`: append, shadowing any earlier binding. -/
def storeSet (store : Store) (jobId : String) (record : JobRecord) : Store :=
  store ++ [(buildJobKey jobId, record)]

/-- Model of `deleteJobRecord` / `storage.delete`. -/
def deleteJobRecord (store : Store) (jobId : String) : Store :=
  store.filter (fun p => p.1 != buildJobKey jobId)

/-- The literal truncation marker appended by `truncate` (the source file
contains these exact three characters). -/
def truncationMarker : String := "â€¦"

/-- Model of `truncate`: defensively cap a string value, appending a
truncation marker; non-strings and falsy values pass through. -/
def truncate (value : JValue) (maxLength : Nat) : JValue :=
  match value with
  | .str s => if s = "" then .str s
              else if s.length ≤ maxLength then .str s
              else .str (⟨s.data.take maxLength⟩ ++ truncationMarker)
  | v => v

/-- Model of `safeClone`: a JSON round trip, the identity on `JValue`. -/
def safeClone (v : JValue) : JValue := v

/-- JavaScript `a || b` where the final operand is a present value. -/
def jsOrV (a : Option JValue) (b : JValue) : JValue :=
  match a with
  | some v => if jsTruthy v then v else b
  | none => b

/-- Model of `normaliseSearchResult`. -/
def normaliseSearchResult (result : JValue) : JValue :=
  .obj
    [("title",
      truncate
        (jsOrV (jsGetOpt (jsGet result "metadata") "title")
          (jsOrV (jsGet result "title") (.str "Knowledge Base Article"))) 256),
     ("link",
      jsOrV (jsGetOpt (jsGet result "metadata") "link")
        (jsOrV (jsGet result "link") (.str ""))),
     ("contentSnippet",
      truncate
        (jsOrV (jsGetOpt (jsGet result "metadata") "content")
          (jsOrV (jsGet result "contentSnippet")
            (jsOrV (jsGet result "content") (.str "")))) 1024)]

def DEFAULT_RETENTION_DAYS : Int := 14

def MILLIS_PER_DAY : Int := 24 * 60 * 60 * 1000

/-- Model of `computeExpiryTimestamp` relative to an explicit now. -/
def computeExpiryTimestamp (now retentionDays : Int) : Int :=
  now + retentionDays * MILLIS_PER_DAY

/-- The argument object of `createJobRecord`. -/
structure CreateFields where
  jobId : String
  jobType : String
  status : Option String := none
  invoker : Option JValue := none
  llmCharacters : Option JValue := none
  promptLength : Option JValue := none
  systemPromptLength : Option JValue := none
  promptFingerprint : Option String := none
  vectorStats : Option JValue := none
  auxiliaryData : List (String × JValue) := []
  retentionDays : Int := DEFAULT_RETENTION_DAYS
  logs : List String := []

/-- The `auxiliaryData` stored at creation: a spread of the caller's payload
with `searchResults` overwritten by its normalised form when it is an array,
and dropped otherwise (an `undefined` property does not survive the JSON
round trip into storage). -/
def createdAuxiliary (aux : List (String × JValue)) : List (String × JValue) :=
  match lookupLast aux "searchResults" with
  | some (.arr xs) =>
    removeKey aux "searchResults" ++
      [("searchResults", .arr (xs.map normaliseSearchResult))]
  | _ => removeKey aux "searchResults"

/-- Model of `createJobRecord`. -/
def createJobRecord (store : Store) (f : CreateFields) (now : Int) :
    JobRecord × Store :=
  let record : JobRecord :=
    { jobId := f.jobId
      jobType := some f.jobType
      status := f.status
      createdAt := now
      updatedAt := some now
      expiresAt := some (computeExpiryTimestamp now f.retentionDays)
      invoker := f.invoker.map safeClone
      llmCharacters := f.llmCharacters.map safeClone
      request := some (.obj
        [("promptLength", (f.promptLength.getD .null)),
         ("systemPromptLength", (f.systemPromptLength.getD .null)),
         ("promptFingerprint",
          match f.promptFingerprint with
          | some fp => if fp = "" then .null else .str fp
          | none => .null)])
      vectorStats := f.vectorStats.map safeClone
      auxiliaryData := some (createdAuxiliary f.auxiliaryData)
      result := none
      error := none
      processedWebhookIds := []
      logs := f.logs }
  (record, storeSet store f.jobId record)

/-- The partial-fields argument of `updateJobRecord`.  An outer `none` is an
absent property; for `result`, `error`, `llmCharacters` and `vectorStats` the
inner `Option` distinguishes an explicit `null` from a value (the repository
never passes an explicit `undefined`). -/
structure JobUpdates where
  status : Option String := none
  result : Option (Option JValue) := none
  error : Option (Option JValue) := none
  llmCharacters : Option (Option JValue) := none
  vectorStats : Option (Option JValue) := none
  auxiliaryData : Option (List (String × JValue)) := none
  processedWebhookIds : Option (List String) := none

/-- The minimal shell `updateJobRecord` synthesises when no record exists. -/
def shellRecord (jobId : String) (now : Int) : JobRecord :=
  { jobId := jobId, createdAt := now }

/-- Model of `updateJobRecord`: load-or-shell, shallow-merge the supplied
fields, `status: updates.status || existing.status`, always bump `updatedAt`,
deep-replace `result`/`error`/`llmCharacters`/`vectorStats` when supplied,
merge `auxiliaryData` (object spread: the update's keys shadow the existing
ones), persist and return the merged record.  The deep replacement
(`safeClone`) is the identity on `JValue`. -/
def updateJobRecord (store : Store) (jobId : String) (u : JobUpdates)
    (now : Int) : JobRecord × Store :=
  let existing := (storeGet store jobId).getD (shellRecord jobId now)
  let merged : JobRecord :=
    { jobId := existing.jobId
      jobType := existing.jobType
      status :=
        match u.status with
        | some s => if s = "" then existing.status else some s
        | none => existing.status
      createdAt := existing.createdAt
      updatedAt := some now
      expiresAt := existing.expiresAt
      invoker := existing.invoker
      request := existing.request
      llmCharacters :=
        match u.llmCharacters with
        | some v => v.map safeClone
        | none => existing.llmCharacters
      vectorStats :=
        match u.vectorStats with
        | some v => v.map safeClone
        | none => existing.vectorStats
      auxiliaryData :=
        match u.auxiliaryData with
        | some a => some (existing.auxiliaryData.getD [] ++ a.map
            (fun p => (p.1, safeClone p.2)))
        | none => existing.auxiliaryData
      result :=
        match u.result with
        | some v => v.map safeClone
        | none => existing.result
      error :=
        match u.error with
        | some v => v.map safeClone
        | none => existing.error
      processedWebhookIds := u.processedWebhookIds.getD existing.processedWebhookIds
      logs := existing.logs }
  (merged, storeSet store jobId merged)

/-- Model of `listExpiredJobs`: every stored record whose `expiresAt` is
present and not in the future (stored expiry timestamps are non-empty ISO
strings, hence always truthy). -/
def listExpiredJobs (store : Store) (now : Int) : List JobRecord :=
  (store.map Prod.snd).filter (fun r =>
    match r.expiresAt with
    | some e => decide (e ≤ now)
    | none => false)

/- ### Records as JavaScript objects returned to callers -/

/-- A `JobRecord` as the JavaScript object a handler returns: present fields
only (a field the record lacks is `undefined` and has no key). -/
def recordToJs (r : JobRecord) : JValue :=
  .obj
    ([("jobId", .str r.jobId)] ++
     (match r.jobType with | some t => [("jobType", JValue.str t)] | none => []) ++
     (match r.status with | some s => [("status", JValue.str s)] | none => []) ++
     [("createdAt", .num r.createdAt)] ++
     (match r.updatedAt with | some t => [("updatedAt", JValue.num t)] | none => []) ++
     (match r.expiresAt with | some t => [("expiresAt", JValue.num t)] | none => []) ++
     (match r.invoker with | some v => [("invoker", v)] | none => []) ++
     (match r.request with | some v => [("request", v)] | none => []) ++
     (match r.llmCharacters with | some v => [("llmCharacters", v)] | none => []) ++
     (match r.vectorStats with | some v => [("vectorStats", v)] | none => []) ++
     (match r.auxiliaryData with
      | some fs => [("auxiliaryData", JValue.obj fs)] | none => []) ++
     (match r.result with | some v => [("result", v)] | none => []) ++
     (match r.error with | some v => [("error", v)] | none => []) ++
     [("processedWebhookIds", .arr (r.processedWebhookIds.map JValue.str)),
      ("logs", .arr (r.logs.map JValue.str))])

/- ### Cancellation and status query (src/handlers/cancelJob.js,
src/handlers/getJobStatus.js) -/

/-- The `{success, job?, error?, message?}` object a resolver returns. -/
structure ResolverReply where
  success : Bool
  job : Option JValue := none
  error : Option String := none
  message : Option String := none

/-- Model of `FINAL_STATUSES.has(status)`. -/
def isFinalStatus : Option String → Bool
  | some s => s = "completed" || s = "failed" || s = "cancelled"
  | none => false

/-- Model of the `cancelJob` handler.  `cancelStatus` stands for
`cancelResponse?.status` from the provider's cancellation call; the third
component records whether that provider call was made. -/
def cancelJob (store : Store) (payloadJobId : Option String)
    (cancelStatus : Option String) (now : Int) :
    ResolverReply × Store × Bool :=
  match truthyS payloadJobId with
  | none =>
    ({ success := false,
       error := some "Job identifier is required to request cancellation." },
     store, false)
  | some jobId =>
    match storeGet store jobId with
    | none =>
      ({ success := false,
         error := some ("No background job found for id " ++ jobId ++ ".") },
       store, false)
    | some record =>
      if isFinalStatus record.status then
        ({ success := true,
           job := some (recordToJs record),
           message := some ("Job already settled with status " ++
             (record.status.getD "undefined") ++ ".") },
         store, false)
      else
        let cancelError : JValue := .obj
          ([("reason", .str "cancelled_by_user"),
            ("message", .str "Job cancelled at the request of the agent.")] ++
           (match cancelStatus with
            | some s => [("openaiStatus", JValue.str s)]
            | none => []))
        let (updated, store') := updateJobRecord store jobId
          { status := some "cancelled"
            result := some none
            error := some (some cancelError) } now
        ({ success := true,
           job := some (objRemove (recordToJs updated) "processedWebhookIds") },
         store', true)

/-- Model of the `getJobStatus` handler. -/
def getJobStatus (store : Store) (payloadJobId : Option String) : ResolverReply :=
  match truthyS payloadJobId with
  | none =>
    { success := false,
      error := some "Job identifier is required to check status." }
  | some jobId =>
    match storeGet store jobId with
    | none =>
      { success := false,
        error := some ("No background job found for id " ++ jobId ++ ".") }
    | some record =>
      { success := true,
        job := some (objRemove (recordToJs record) "processedWebhookIds") }

/- ### Retention sweep (src/handlers/cleanupJobs.js) -/

structure CleanupResult where
  success : Bool
  pruned : Nat
  message : String

def cleanupMessage (deleted : Nat) : String :=
  "Removed " ++ natToStr deleted ++ " expired job" ++
    (if deleted = 1 then "" else "s") ++ " from storage."

/-- The deletion loop of the sweep.  `delErr` models `storage.delete`'s
outcome per job id (`some e` is a thrown error).  A thrown error propagates
out of the handler: deletions already performed persist, later jobs are not
attempted. -/
def cleanupLoop (delErr : String → Option String) :
    List JobRecord → Store → Nat → Except String CleanupResult × Store
  | [], store, deleted =>
    (.ok { success := true, pruned := deleted, message := cleanupMessage deleted },
     store)
  | job :: rest, store, deleted =>
    match delErr job.jobId with
    | some e => (.error e, store)
    | none => cleanupLoop delErr rest (deleteJobRecord store job.jobId) (deleted + 1)

/-- Model of the scheduled `run` of cleanupJobs. -/
def cleanupRun (store : Store) (now : Int) (delErr : String → Option String) :
    Except String CleanupResult × Store :=
  let expiredJobs := listExpiredJobs store now
  if expiredJobs.isEmpty then
    (.ok { success := true, pruned := 0, message := "No expired jobs to delete." },
     store)
  else
    cleanupLoop delErr expiredJobs store 0

/- ### Webhook dispatcher (src/webhooks/openaiWebhook.js lines 586-747) -/

/-- Model of `buildProcessedList`: without a delivery id the existing ledger
is returned untouched; with one, the ledger is deduplicated (first
occurrence kept, `Set` insertion order) and the id appended if new. -/
def dedupKeepFirst : List String → List String
  | [] => []
  | x :: rest => x :: (dedupKeepFirst rest).filter (fun y => y != x)

def buildProcessedList (existing : List String) (webhookId : Option String) :
    List String :=
  match truthyS webhookId with
  | none => existing
  | some w =>
    let deduped := dedupKeepFirst existing
    if deduped.contains w then deduped else deduped ++ [w]

/-- Model of `eventKeyFor`. -/
def eventKeyFor (jobType : Option String) (suffix : String) : String :=
  (if jobType = some "analysis" then "job-analysis" else "job-response") ++
    "-" ++ suffix

/-- The provider-, parser- and clock-shaped environment of the dispatcher.
`retrieve` models `openaiService.retrieveCompletion` (an `error` is a thrown
exception), `extractText` models `extractOutputText` (which catches
internally and yields `null`), and `makeResult` abstracts the
result-shaping of lines 687-716 (parseAnalysisResponse /
parseFinalResponse / enrichArticles / ensureAgentSignature), whose output
value none of the verified properties inspect. -/
structure RunCtx where
  secret : Option String
  hmac : Hmac
  nowSeconds : Int
  nowStamp : Int
  jsonParse : String → Option JValue
  retrieve : String → Except String JValue
  extractText : JValue → Option String
  makeResult : JobRecord → String → JValue

/-- The observable effects of one dispatcher invocation on the Job Store and
the external provider. -/
inductive StoreOp where
  | get : String → StoreOp
  | set : String → StoreOp
  | retrieveCall : String → StoreOp
deriving DecidableEq

structure WebResponse where
  statusCode : Nat
  body : String
deriving DecidableEq

/-- The job id carried by the parsed event (`webhookEvent?.data?.id`),
coerced to the storage-key string exactly when truthy. -/
def runJobId (ev : JValue) : Option String :=
  match jsGetOpt (jsGet ev "data") "id" with
  | some (.str s) => if s = "" then none else some s
  | some (.num n) => if n = 0 then none else some (intToStr n)
  | _ => none

/-- The failure object persisted on a non-completed artifact
(lines 729-736). -/
def runFailureValue (payload ev : JValue) : JValue :=
  let errV := jsGet payload "error"
  let message :=
    jsOrOpt (jsGetOpt errV "message")
      (jsOrOpt errV (some (.str "Unknown failure")))
  let detailsPresent :=
    match jsGetOpt errV "code" with
    | some v => jsTruthy v
    | none => false
  let statusV := jsOrOpt (jsGet payload "status") (jsGet ev "type")
  .obj
    ((match message with | some m => [("message", m)] | none => []) ++
     (if detailsPresent then
        match errV with | some e => [("details", e)] | none => []
      else []) ++
     (match statusV with | some s => [("status", s)] | none => []))

/-- Model of the webhook `run` export (lines 609-747).  Returns the HTTP
response, the resulting store, and the trace of Job-Store/provider effects
performed. -/
def runWebhook (ctx : RunCtx) (store : Store) (headersRaw : Headers)
    (rawBody : String) : WebResponse × Store × List StoreOp :=
  let headers := normaliseHeaders headersRaw
  match ctx.secret with
  | none =>
    ({ statusCode := 401, body := "Webhook secret not configured" }, store, [])
  | some webhookSecret =>
    match unwrapWebhookEvent ctx.hmac ctx.jsonParse ctx.nowSeconds rawBody
        headers webhookSecret with
    | .error _ =>
      ({ statusCode := 400, body := "Invalid webhook signature" }, store, [])
    | .ok webhookEvent =>
      let webhookId := hGet headers "webhook-id"
      match runJobId webhookEvent with
      | none =>
        ({ statusCode := 200, body := "Ack: missing job id" }, store, [])
      | some jobId =>
        match storeGet store jobId with
        | none =>
          ({ statusCode := 200, body := "Ack: job not tracked" }, store,
           [.get jobId])
        | some trackedJob =>
          if (truthyS webhookId).isSome &&
              trackedJob.processedWebhookIds.contains ((truthyS webhookId).getD "") then
            ({ statusCode := 200, body := "Ack: duplicate" }, store, [.get jobId])
          else
            match ctx.retrieve jobId with
            | .error msg =>
              let (_, store') := updateJobRecord store jobId
                { status := some "failed"
                  error := some (some (.obj
                    [("reason", .str "retrieve_failed"),
                     ("message", .str msg)]))
                  processedWebhookIds := some
                    (buildProcessedList trackedJob.processedWebhookIds webhookId) }
                ctx.nowStamp
              ({ statusCode := 200, body := "Ack: retrieve failed" }, store',
               [.get jobId, .retrieveCall jobId, .set jobId])
            | .ok responsePayload =>
              let outputText := ctx.extractText responsePayload
              let processedWebhookIds :=
                buildProcessedList trackedJob.processedWebhookIds webhookId
              let statusIsCompleted :=
                match jsGet responsePayload "status" with
                | some (.str s) => s == "completed"
                | _ => false
              let textTruthy :=
                match outputText with
                | some t => t != ""
                | none => false
              if statusIsCompleted && textTruthy then
                let result := ctx.makeResult trackedJob (outputText.getD "")
                let (_, store') := updateJobRecord store jobId
                  { status := some "completed"
                    result := some (some result)
                    error := some none
                    processedWebhookIds := some processedWebhookIds } ctx.nowStamp
                ({ statusCode := 200, body := "Ack: completed" }, store',
                 [.get jobId, .retrieveCall jobId, .set jobId])
              else
                let failureStatus :=
                  match jsGet responsePayload "status" with
                  | some (.str s) => if s = "cancelled" then "cancelled" else "failed"
                  | _ => "failed"
                let (_, store') := updateJobRecord store jobId
                  { status := some failureStatus
                    error := some (some (runFailureValue responsePayload webhookEvent))
                    processedWebhookIds := some processedWebhookIds } ctx.nowStamp
                ({ statusCode := 200, body := "Ack: failure" }, store',
                 [.get jobId, .retrieveCall jobId, .set jobId])

/- ### The verification acceptance condition as the specification words it

The following definitions follow the SPECIFICATION'S words (spec.md §4.2,
§8 first bullet), not the source, and exist solely to be compared against
`verifyWebhookSignature`: verification succeeds iff, for some scheme whose
signature header is present, the HMAC-SHA256 digest over that scheme's
canonical signed string matches at least one provided signature candidate —
decoded as base64 or hex with matching byte length — and that scheme's
timestamp is within 300 seconds of now. -/

def claimSchemeOpenAiAccepts (hmac : Hmac) (now : Int)
    (rawBody : String) (headers : Headers) (secret : String) : Bool :=
  match findTruthyHeader headers ["x-openai-signature", "openai-signature"] with
  | some h =>
    match parseOpenAiSignature h with
    | some (t, sigs) =>
      decide ((now - t).natAbs ≤ 300) &&
        matchesSignature hmac (strBytes secret) (intToStr t ++ "." ++ rawBody) sigs
    | none => false
  | none => false

def claimSchemeSvixAccepts (hmac : Hmac) (now : Int)
    (rawBody : String) (headers : Headers) (secret : String) : Bool :=
  match findTruthyHeader headers ["svix-signature"],
      findTruthyHeader headers
        ["svix-timestamp", "x-openai-timestamp", "openai-timestamp"],
      truthyS (hGet headers "svix-id") with
  | some h, some tsH, some idH =>
    match parseSvixSignature h, jsNumber tsH with
    | some sigs, some t =>
      decide ((now - t).natAbs ≤ 300) &&
        (match base64Decode (stripWhsec secret) with
         | some key =>
           !key.isEmpty &&
             matchesSignature hmac key (idH ++ "." ++ tsH ++ "." ++ rawBody) sigs
         | none => false)
    | _, _ => false
  | _, _, _ => false

def claimSchemeStandardAccepts (hmac : Hmac) (now : Int)
    (rawBody : String) (headers : Headers) (secret : String) : Bool :=
  match findTruthyHeader headers ["webhook-signature"],
      findTruthyHeader headers
        ["webhook-timestamp", "svix-timestamp", "x-openai-timestamp",
         "openai-timestamp"],
      findTruthyHeader headers ["webhook-id"] with
  | some h, some tsH, some idH =>
    match parseStandardSignature h, jsNumber tsH with
    | some sigs, some t =>
      decide ((now - t).natAbs ≤ 300) &&
        (match deriveStandardSecretKey secret with
         | some key =>
           matchesSignature hmac key (idH ++ "." ++ tsH ++ "." ++ rawBody) sigs
         | none => false)
    | _, _ => false
  | _, _, _ => false

/-- Claim C1's acceptance condition: some present scheme's digest matches a
base64-or-hex decoded candidate and its timestamp is recent. -/
def claimVerificationAccepts (hmac : Hmac) (now : Int)
    (rawBody : String) (headers : Headers) (secret : String) : Bool :=
  claimSchemeOpenAiAccepts hmac now rawBody headers secret ||
    claimSchemeSvixAccepts hmac now rawBody headers secret ||
    claimSchemeStandardAccepts hmac now rawBody headers secret

/- ### Concrete instances used by counterexamples and witnesses -/

/-- A dummy HMAC primitive: the theorems hold for an arbitrary one, the
concrete instances fix a three-byte digest. -/
def exHmac : Hmac := fun _ _ => [0, 0, 0]

/-- A settled (terminal) job record with one applied delivery id. -/
def exCompletedRecord : JobRecord :=
  { jobId := "job1"
    jobType := some "response"
    status := some "completed"
    createdAt := 0
    processedWebhookIds := ["w1"] }

def exStore : Store := [(buildJobKey "job1", exCompletedRecord)]

/-- An event body parse that yields a `response.failed` event for `job1`. -/
def exParsedEvent : JValue :=
  .obj [("data", .obj [("id", .str "job1")]), ("type", .str "response.failed")]

/-- A dispatcher environment whose provider retrieval call throws. -/
def exCtx : RunCtx :=
  { secret := some "sec"
    hmac := exHmac
    nowSeconds := 100
    nowStamp := 5
    jsonParse := fun _ => some exParsedEvent
    retrieve := fun _ => .error "boom"
    extractText := fun _ => none
    makeResult := fun _ _ => .null }

/-- Headers signed under the provider-native scheme (`exHmac` digest is
`[0,0,0]`, and `AAAA` base64-decodes to `[0,0,0]`), carrying the fresh
delivery id `w2`. -/
def exHeadersFreshId : Headers :=
  [("x-openai-signature", "t=100,v1=AAAA"), ("webhook-id", "w2")]

/-- The same signed headers carrying the already-applied delivery id `w1`. -/
def exHeadersDupId : Headers :=
  [("x-openai-signature", "t=100,v1=AAAA"), ("webhook-id", "w1")]

/-- The same signed headers with no delivery id at all. -/
def exHeadersNoId : Headers :=
  [("x-openai-signature", "t=100,v1=AAAA")]

/-- Svix-scheme headers whose signature candidate is the hex encoding
`000000` of the digest `[0,0,0]`: accepted by the claim's base64-or-hex
rule, rejected by the code's base64-only Svix comparison. -/
def exHeadersSvixHex : Headers :=
  [("svix-signature", "v1=000000"), ("svix-timestamp", "100"),
   ("svix-id", "m1")]

/-- Two expired records for the retention-sweep claims. -/
def exExpiredA : JobRecord := { jobId := "e1", createdAt := 0, expiresAt := some 10 }

def exExpiredB : JobRecord := { jobId := "e2", createdAt := 0, expiresAt := some 20 }

def exExpiredStore : Store :=
  [(buildJobKey "e1", exExpiredA), (buildJobKey "e2", exExpiredB)]

/-- A deletion-outcome function that throws on `e1` only. -/
def exDelErrOnE1 : String → Option String :=
  fun j => if j = "e1" then some "disk failure" else none

/-- A 1030-character string, longer than the claimed 1024 ceiling. -/
def exLongString : String := ⟨List.replicate 1030 'a'⟩

/-- Creation fields whose `auxiliaryData` holds an over-long plain string. -/
def exCreateFields : CreateFields :=
  { jobId := "c1", jobType := "analysis",
    auxiliaryData := [("note", .str exLongString)] }

/-- An in-flight record for the cancellation-path claims. -/
def exRunningRecord : JobRecord :=
  { jobId := "job2"
    jobType := some "response"
    status := some "in_progress"
    createdAt := 0
    processedWebhookIds := ["w9"] }

def exRunningStore : Store := [(buildJobKey "job2", exRunningRecord)]

/-- A record with pre-existing auxiliary data, for the update contract. -/
def exAuxRecord : JobRecord :=
  { jobId := "u1"
    jobType := some "analysis"
    status := some "in_progress"
    createdAt := 2
    auxiliaryData := some [("a", .str "1"), ("b", .str "2")] }

def exAuxStore : Store := [(buildJobKey "u1", exAuxRecord)]

/-- A concrete partial-fields update touching status, result and
auxiliaryData. -/
def exUpdateFields : JobUpdates :=
  { status := some "failed"
    result := some (some (.str "payload"))
    auxiliaryData := some [("b", .str "3"), ("c", .str "4")] }

/-- The sanitized job object of a concrete completed cancellation. -/
def exCancelledJobValue : JValue :=
  ((cancelJob exRunningStore (some "job2") (some "canceling") 7).1.job).getD .null

/-- The job object returned by a concrete status query. -/
def exStatusJobValue : JValue :=
  ((getJobStatus exStore (some "job1")).job).getD .null

/- ## Supporting lemmas -/

theorem lookupLast_append {α : Type} (l1 l2 : List (String × α)) (k : String) :
    lookupLast (l1 ++ l2) k =
      match lookupLast l2 k with
      | some r => some r
      | none => lookupLast l1 k := by
  induction l1 with
  | nil =>
    simp only [List.nil_append]
    cases lookupLast l2 k <;> rfl
  | cons p rest ih =>
    obtain ⟨k', v⟩ := p
    simp only [List.cons_append, lookupLast, List.append_eq]
    rw [ih]
    cases lookupLast l2 k <;> cases lookupLast rest k <;> simp [lookupLast]

theorem lookupLast_removeKey {α : Type} (l : List (String × α)) (k : String) :
    lookupLast (removeKey l k) k = none := by
  induction l with
  | nil => rfl
  | cons p rest ih =>
    obtain ⟨k', v⟩ := p
    by_cases h : k' = k
    · simp [removeKey, h, ih]
    · simp [removeKey, h, lookupLast, ih]

theorem lookupLast_removeKey_ne {α : Type} (l : List (String × α)) (k0 k : String)
    (h : k ≠ k0) : lookupLast (removeKey l k0) k = lookupLast l k := by
  induction l with
  | nil => rfl
  | cons p rest ih =>
    obtain ⟨k', v⟩ := p
    by_cases hk : k' = k0
    · have hne : k0 ≠ k := Ne.symm h
      simp only [removeKey, hk, if_pos, ih, lookupLast]
      cases lookupLast rest k <;> simp [hne]
    · simp [removeKey, hk, lookupLast, ih]

theorem jsGet_objRemove (v : JValue) (k : String) :
    jsGet (objRemove v k) k = none := by
  cases v <;> simp [objRemove, jsGet, lookupLast_removeKey]

theorem storeGet_storeSet_self (store : Store) (jobId : String) (r : JobRecord) :
    storeGet (storeSet store jobId r) jobId = some r := by
  simp [storeGet, storeSet, lookupLast_append, lookupLast]

theorem jsGet_recordToJs_ledger (r : JobRecord) :
    jsGet (recordToJs r) "processedWebhookIds" =
      some (.arr (r.processedWebhookIds.map JValue.str)) := by
  simp [recordToJs, jsGet, lookupLast_append, lookupLast]

/-- The terminal short-circuit of the cancellation handler. -/
theorem cancelJob_terminal_eq (store : Store) (jobId : String)
    (record : JobRecord) (cancelStatus : Option String) (now : Int)
    (hjid : jobId ≠ "") (hg : storeGet store jobId = some record)
    (hfin : isFinalStatus record.status = true) :
    cancelJob store (some jobId) cancelStatus now =
      ({ success := true, job := some (recordToJs record),
         message := some ("Job already settled with status " ++
           (record.status.getD "undefined") ++ ".") }, store, false) := by
  simp [cancelJob, truthyS, hjid, hg, hfin]

/- ## Claim C6 -/

/-- C6: for every job whose status is already terminal, a cancellation
request returns success with the current record and an informational
message, does not invoke the provider's cancellation call, leaves the stored
record unchanged, and a second cancellation of the same job returns the same
result. -/
theorem claim6_terminal_cancel_idempotent (store : Store) (jobId : String)
    (record : JobRecord) (cancelStatus : Option String) (now : Int)
    (hjid : jobId ≠ "") (hg : storeGet store jobId = some record)
    (hfin : isFinalStatus record.status = true) :
    cancelJob store (some jobId) cancelStatus now =
      ({ success := true, job := some (recordToJs record),
         message := some ("Job already settled with status " ++
           (record.status.getD "undefined") ++ ".") }, store, false) ∧
    cancelJob ((cancelJob store (some jobId) cancelStatus now).2.1)
        (some jobId) cancelStatus now =
      cancelJob store (some jobId) cancelStatus now := by
  have h := cancelJob_terminal_eq store jobId record cancelStatus now hjid hg hfin
  refine ⟨h, ?_⟩
  have h21 : (cancelJob store (some jobId) cancelStatus now).2.1 = store := by
    rw [h]
  rw [h21]

/-- C6 witness: cancelling the concrete settled job `job1` twice. -/
theorem claim6_witness :
    ("job1" ≠ "" ∧ storeGet exStore "job1" = some exCompletedRecord ∧
      isFinalStatus exCompletedRecord.status = true) ∧
    (cancelJob exStore (some "job1") none 7 =
      ({ success := true, job := some (recordToJs exCompletedRecord),
         message := some ("Job already settled with status " ++
           (exCompletedRecord.status.getD "undefined") ++ ".") }, exStore, false) ∧
     cancelJob ((cancelJob exStore (some "job1") none 7).2.1) (some "job1") none 7 =
       cancelJob exStore (some "job1") none 7) :=
  ⟨⟨by decide, rfl, rfl⟩,
   claim6_terminal_cancel_idempotent exStore "job1" exCompletedRecord none 7
     (by decide) rfl rfl⟩

/- ## Claim C5 -/

/-- C5 counterexample: cancelling the already-settled job `job1` succeeds
and returns a job object that still carries the `processedWebhookIds`
ledger, so the ledger is not always stripped from externally returned
records. -/
theorem claim5_counterexample :
    (cancelJob exStore (some "job1") none 7).1.success = true ∧
    ((cancelJob exStore (some "job1") none 7).1.job).bind
        (fun j => jsGet j "processedWebhookIds") = some (.arr [.str "w1"]) :=
  ⟨rfl, rfl⟩

/-- C5 amended: the status query always strips the idempotency ledger, and
so does the cancellation path that actually performs a cancellation; the
terminal-state short-circuit of cancellation, however, returns the record
with the ledger still present. -/
theorem claim5_ledger_stripping :
    (∀ (store : Store) (jobId : String) (record : JobRecord) (j : JValue),
        jobId ≠ "" → storeGet store jobId = some record →
        (getJobStatus store (some jobId)).job = some j →
        jsGet j "processedWebhookIds" = none) ∧
    (∀ (store : Store) (jobId : String) (record : JobRecord)
        (cancelStatus : Option String) (now : Int) (j : JValue),
        jobId ≠ "" → storeGet store jobId = some record →
        isFinalStatus record.status = false →
        (cancelJob store (some jobId) cancelStatus now).1.job = some j →
        jsGet j "processedWebhookIds" = none) ∧
    (∀ (store : Store) (jobId : String) (record : JobRecord)
        (cancelStatus : Option String) (now : Int),
        jobId ≠ "" → storeGet store jobId = some record →
        isFinalStatus record.status = true →
        (cancelJob store (some jobId) cancelStatus now).1.job =
          some (recordToJs record) ∧
        jsGet (recordToJs record) "processedWebhookIds" =
          some (.arr (record.processedWebhookIds.map JValue.str))) := by
  refine ⟨?_, ?_, ?_⟩
  · intro store jobId record j hjid hg hj
    simp [getJobStatus, truthyS, hjid, hg] at hj
    rw [← hj]
    exact jsGet_objRemove _ _
  · intro store jobId record cancelStatus now j hjid hg hfin hj
    simp [cancelJob, truthyS, hjid, hg, hfin] at hj
    rw [← hj]
    exact jsGet_objRemove _ _
  · intro store jobId record cancelStatus now hjid hg hfin
    have h := cancelJob_terminal_eq store jobId record cancelStatus now hjid hg hfin
    rw [h]
    exact ⟨rfl, jsGet_recordToJs_ledger record⟩

/-- C5 witness: the job object returned by a concrete performing
cancellation carries no ledger. -/
theorem claim5_witness :
    ("job2" ≠ "" ∧ storeGet exRunningStore "job2" = some exRunningRecord ∧
      isFinalStatus exRunningRecord.status = false ∧
      (cancelJob exRunningStore (some "job2") (some "canceling") 7).1.job =
        some exCancelledJobValue) ∧
    jsGet exCancelledJobValue "processedWebhookIds" = none :=
  ⟨⟨by decide, rfl, rfl, rfl⟩,
   claim5_ledger_stripping.2.1 exRunningStore "job2" exRunningRecord
     (some "canceling") 7 exCancelledJobValue (by decide) rfl rfl rfl⟩

/- ## Claim C7 -/

/-- C7 counterexample: with two expired records and a deletion failure on
the first, the sweep run propagates the error instead of returning a
success result, and the second record was never deleted. -/
theorem claim7_counterexample :
    (cleanupRun exExpiredStore 100 exDelErrOnE1).1 = .error "disk failure" ∧
    storeGet ((cleanupRun exExpiredStore 100 exDelErrOnE1).2) "e2" =
      some exExpiredB :=
  ⟨rfl, rfl⟩

theorem cleanupLoop_no_failures (delErr : String → Option String)
    (jobs : List JobRecord) (store : Store) (n : Nat)
    (h : ∀ j ∈ jobs, delErr j.jobId = none) :
    cleanupLoop delErr jobs store n =
      (.ok { success := true, pruned := n + jobs.length,
             message := cleanupMessage (n + jobs.length) },
       jobs.foldl (fun st j => deleteJobRecord st j.jobId) store) := by
  induction jobs generalizing store n with
  | nil => simp [cleanupLoop]
  | cons j rest ih =>
    have hj : delErr j.jobId = none := h j (by simp)
    have hrest : ∀ x ∈ rest, delErr x.jobId = none := fun x hx => h x (by simp [hx])
    rw [cleanupLoop, hj, ih _ _ hrest]
    simp [Nat.add_assoc, Nat.add_comm 1 rest.length]

theorem cleanupLoop_aborts (delErr : String → Option String)
    (pre : List JobRecord) (j : JobRecord) (post : List JobRecord)
    (store : Store) (n : Nat) (e : String)
    (hpre : ∀ x ∈ pre, delErr x.jobId = none) (hj : delErr j.jobId = some e) :
    cleanupLoop delErr (pre ++ j :: post) store n =
      (.error e, pre.foldl (fun st x => deleteJobRecord st x.jobId) store) := by
  induction pre generalizing store n with
  | nil => simp [cleanupLoop, hj]
  | cons x rest ih =>
    have hx : delErr x.jobId = none := hpre x (by simp)
    rw [List.cons_append, cleanupLoop, hx,
      ih (deleteJobRecord store x.jobId) (n + 1)
        (fun y hy => hpre y (List.mem_cons_of_mem x hy))]
    simp

/-- C7 amended: the sweep deletes expired jobs in listing order and, when no
deletion fails, returns success with the count of expired records; but a
deletion error aborts the whole run with that error — records already
deleted stay deleted, records after the failing one are not attempted. -/
theorem claim7_sweep_abort_behaviour :
    (∀ (store : Store) (now : Int) (delErr : String → Option String),
        listExpiredJobs store now = [] →
        cleanupRun store now delErr =
          (.ok { success := true, pruned := 0,
                 message := "No expired jobs to delete." }, store)) ∧
    (∀ (store : Store) (now : Int) (delErr : String → Option String),
        listExpiredJobs store now ≠ [] →
        (∀ j ∈ listExpiredJobs store now, delErr j.jobId = none) →
        cleanupRun store now delErr =
          (.ok { success := true, pruned := (listExpiredJobs store now).length,
                 message := cleanupMessage (listExpiredJobs store now).length },
           (listExpiredJobs store now).foldl
             (fun st j => deleteJobRecord st j.jobId) store)) ∧
    (∀ (store : Store) (now : Int) (delErr : String → Option String)
        (pre : List JobRecord) (j : JobRecord) (post : List JobRecord)
        (e : String),
        listExpiredJobs store now = pre ++ j :: post →
        (∀ x ∈ pre, delErr x.jobId = none) → delErr j.jobId = some e →
        cleanupRun store now delErr =
          (.error e, pre.foldl (fun st x => deleteJobRecord st x.jobId) store)) := by
  refine ⟨?_, ?_, ?_⟩
  · intro store now delErr h
    simp [cleanupRun, h]
  · intro store now delErr hne h
    rw [cleanupRun, if_neg (by simpa [List.isEmpty_iff] using hne),
      cleanupLoop_no_failures delErr _ store 0 h]
    simp
  · intro store now delErr pre j post e hsplit hpre hj
    rw [cleanupRun, if_neg (by simp [List.isEmpty_iff, hsplit]), hsplit,
      cleanupLoop_aborts delErr pre j post store 0 e hpre hj]

/-- C7 witness: the abort clause applied to the concrete two-record store
failing on its first deletion. -/
theorem claim7_witness :
    (listExpiredJobs exExpiredStore 100 = [] ++ exExpiredA :: [exExpiredB] ∧
      exDelErrOnE1 exExpiredA.jobId = some "disk failure") ∧
    cleanupRun exExpiredStore 100 exDelErrOnE1 =
      (.error "disk failure",
       ([] : List JobRecord).foldl
         (fun st x => deleteJobRecord st x.jobId) exExpiredStore) :=
  ⟨⟨rfl, rfl⟩,
   claim7_sweep_abort_behaviour.2.2 exExpiredStore 100 exDelErrOnE1
     [] exExpiredA [exExpiredB] "disk failure" rfl (by simp) rfl⟩

/- ## Claim C9 -/

set_option maxRecDepth 8192 in
/-- C9 counterexample: a 1030-character plain string inside `auxiliaryData`
is persisted by job creation completely unchanged — no 1024-character cut,
no truncation marker. -/
theorem claim9_counterexample :
    1024 < exLongString.length ∧
    lookupLast ((createJobRecord [] exCreateFields 3).1.auxiliaryData.getD [])
        "note" = some (.str exLongString) := by
  constructor
  · decide
  · rfl

/-- C9 amended: job creation leaves every `auxiliaryData` entry other than
`searchResults` untouched; a `searchResults` array is normalised entrywise
(titles capped at 256 and content snippets at 1024 characters), and the
underlying `truncate` helper cuts an over-long string at the ceiling and
appends the truncation marker. -/
theorem claim9_auxiliary_truncation :
    (∀ (store : Store) (f : CreateFields) (now : Int) (k : String),
        k ≠ "searchResults" →
        lookupLast ((createJobRecord store f now).1.auxiliaryData.getD []) k =
          lookupLast f.auxiliaryData k) ∧
    (∀ (store : Store) (f : CreateFields) (now : Int) (xs : List JValue),
        lookupLast f.auxiliaryData "searchResults" = some (.arr xs) →
        lookupLast ((createJobRecord store f now).1.auxiliaryData.getD [])
            "searchResults" = some (.arr (xs.map normaliseSearchResult))) ∧
    (∀ (s : String) (maxLength : Nat), maxLength < s.length →
        truncate (.str s) maxLength =
          .str ((⟨s.data.take maxLength⟩ : String) ++ truncationMarker)) := by
  refine ⟨?_, ?_, ?_⟩
  · intro store f now k hk
    show lookupLast (createdAuxiliary f.auxiliaryData) k = _
    rw [createdAuxiliary]
    cases h : lookupLast f.auxiliaryData "searchResults" with
    | none => exact lookupLast_removeKey_ne _ _ _ hk
    | some v =>
      cases v with
      | arr xs =>
        rw [lookupLast_append]
        simp [lookupLast, Ne.symm hk, lookupLast_removeKey_ne _ _ _ hk]
      | null => exact lookupLast_removeKey_ne _ _ _ hk
      | bool b => exact lookupLast_removeKey_ne _ _ _ hk
      | num n => exact lookupLast_removeKey_ne _ _ _ hk
      | str s => exact lookupLast_removeKey_ne _ _ _ hk
      | obj fs => exact lookupLast_removeKey_ne _ _ _ hk
  · intro store f now xs h
    show lookupLast (createdAuxiliary f.auxiliaryData) "searchResults" = _
    rw [createdAuxiliary, h, lookupLast_append]
    simp [lookupLast]
  · intro s maxLength hlt
    have hne : s ≠ "" := by
      intro hc
      rw [hc] at hlt
      simp [String.length] at hlt
    simp [truncate, hne, Nat.not_le.mpr hlt]

set_option maxRecDepth 8192 in
/-- C9 witness: the untouched-entry clause and the marker clause at the
concrete over-long string. -/
theorem claim9_witness :
    ("note" ≠ "searchResults" ∧
      lookupLast ((createJobRecord [] exCreateFields 3).1.auxiliaryData.getD [])
          "note" = lookupLast exCreateFields.auxiliaryData "note") ∧
    (1024 < exLongString.length ∧
      truncate (.str exLongString) 1024 =
        .str ((⟨exLongString.data.take 1024⟩ : String) ++ truncationMarker)) :=
  ⟨⟨by decide, claim9_auxiliary_truncation.1 [] exCreateFields 3 "note" (by decide)⟩,
   ⟨by decide, claim9_auxiliary_truncation.2.2 exLongString 1024 (by decide)⟩⟩

/- ## The dispatcher on a duplicate delivery id -/

/-- A verified callback whose delivery id is already in the job's ledger is
acknowledged with 200 and performs no store write at all. -/
theorem runWebhook_duplicate_acks (ctx : RunCtx) (store : Store)
    (headersRaw : Headers) (rawBody : String) (secret : String) (ev : JValue)
    (jobId wid : String) (record : JobRecord)
    (hsec : ctx.secret = some secret)
    (hu : unwrapWebhookEvent ctx.hmac ctx.jsonParse ctx.nowSeconds rawBody
        (normaliseHeaders headersRaw) secret = .ok ev)
    (hid : runJobId ev = some jobId)
    (hw : hGet (normaliseHeaders headersRaw) "webhook-id" = some wid)
    (hne : wid ≠ "")
    (hg : storeGet store jobId = some record)
    (hmem : wid ∈ record.processedWebhookIds) :
    runWebhook ctx store headersRaw rawBody =
      ({ statusCode := 200, body := "Ack: duplicate" }, store, [.get jobId]) := by
  simp [runWebhook, hsec, hu, hid, hw, hg, truthyS, hne, hmem]

/- ## Claim C3 -/

/-- C3: handling a callback whose delivery identifier is already present in
the record's `processedWebhookIds` leaves the store entirely unchanged and
is acknowledged with a 200 status. -/
theorem claim3_duplicate_callback_noop (ctx : RunCtx) (store : Store)
    (headersRaw : Headers) (rawBody : String) (secret : String) (ev : JValue)
    (jobId wid : String) (record : JobRecord)
    (hsec : ctx.secret = some secret)
    (hu : unwrapWebhookEvent ctx.hmac ctx.jsonParse ctx.nowSeconds rawBody
        (normaliseHeaders headersRaw) secret = .ok ev)
    (hid : runJobId ev = some jobId)
    (hw : hGet (normaliseHeaders headersRaw) "webhook-id" = some wid)
    (hne : wid ≠ "")
    (hg : storeGet store jobId = some record)
    (hmem : wid ∈ record.processedWebhookIds) :
    (runWebhook ctx store headersRaw rawBody).2.1 = store ∧
    (runWebhook ctx store headersRaw rawBody).1.statusCode = 200 ∧
    (runWebhook ctx store headersRaw rawBody).2.2 = [.get jobId] := by
  rw [runWebhook_duplicate_acks ctx store headersRaw rawBody secret ev jobId wid
    record hsec hu hid hw hne hg hmem]
  exact ⟨rfl, rfl, rfl⟩

/-- C3 witness: replaying the already-applied delivery id `w1` against the
settled job `job1`. -/
theorem claim3_witness :
    (exCtx.secret = some "sec" ∧
      runJobId exParsedEvent = some "job1" ∧
      hGet (normaliseHeaders exHeadersDupId) "webhook-id" = some "w1" ∧
      storeGet exStore "job1" = some exCompletedRecord ∧
      "w1" ∈ exCompletedRecord.processedWebhookIds) ∧
    ((runWebhook exCtx exStore exHeadersDupId "body").2.1 = exStore ∧
     (runWebhook exCtx exStore exHeadersDupId "body").1.statusCode = 200 ∧
     (runWebhook exCtx exStore exHeadersDupId "body").2.2 = [.get "job1"]) :=
  ⟨⟨rfl, rfl, rfl, rfl, by decide⟩,
   claim3_duplicate_callback_noop exCtx exStore exHeadersDupId "body" "sec"
     exParsedEvent "job1" "w1" exCompletedRecord rfl rfl rfl rfl
     (by decide) rfl (by decide)⟩

/- ## Claim C10 -/

/-- C10: a verified callback whose headers carry no `webhook-id` bypasses
the idempotency check entirely — the provider retrieval is performed, the
record is re-written, and its `processedWebhookIds` ledger is left exactly
as it was, whatever the processing outcome. -/
theorem claim10_missing_delivery_id_reprocessing (ctx : RunCtx) (store : Store)
    (headersRaw : Headers) (rawBody : String) (secret : String) (ev : JValue)
    (jobId : String) (record : JobRecord)
    (hsec : ctx.secret = some secret)
    (hu : unwrapWebhookEvent ctx.hmac ctx.jsonParse ctx.nowSeconds rawBody
        (normaliseHeaders headersRaw) secret = .ok ev)
    (hid : runJobId ev = some jobId)
    (hw : hGet (normaliseHeaders headersRaw) "webhook-id" = none)
    (hg : storeGet store jobId = some record) :
    (runWebhook ctx store headersRaw rawBody).2.2 =
      [.get jobId, .retrieveCall jobId, .set jobId] ∧
    (runWebhook ctx store headersRaw rawBody).1.statusCode = 200 ∧
    (storeGet (runWebhook ctx store headersRaw rawBody).2.1 jobId).map
        (fun r => r.processedWebhookIds) = some record.processedWebhookIds := by
  cases hr : ctx.retrieve jobId with
  | error msg =>
    simp [runWebhook, hsec, hu, hid, hw, hg, truthyS, hr, updateJobRecord,
      storeGet_storeSet_self, buildProcessedList]
  | ok payload =>
    simp only [runWebhook, hsec, hu, hid, hw, hg, truthyS, hr]
    split
    · next h => simp at h
    · split <;>
        simp [updateJobRecord, hg, storeGet_storeSet_self, buildProcessedList,
          truthyS]

/-- C10 witness: the concrete settled job with a non-empty ledger and no
`webhook-id` header is retrieved and re-written with its ledger intact. -/
theorem claim10_witness :
    (exCtx.secret = some "sec" ∧
      runJobId exParsedEvent = some "job1" ∧
      hGet (normaliseHeaders exHeadersNoId) "webhook-id" = none ∧
      storeGet exStore "job1" = some exCompletedRecord) ∧
    ((runWebhook exCtx exStore exHeadersNoId "body").2.2 =
       [.get "job1", .retrieveCall "job1", .set "job1"] ∧
     (runWebhook exCtx exStore exHeadersNoId "body").1.statusCode = 200 ∧
     (storeGet (runWebhook exCtx exStore exHeadersNoId "body").2.1 "job1").map
         (fun r => r.processedWebhookIds) =
       some exCompletedRecord.processedWebhookIds) :=
  ⟨⟨rfl, rfl, rfl, rfl⟩,
   claim10_missing_delivery_id_reprocessing exCtx exStore exHeadersNoId "body"
     "sec" exParsedEvent "job1" exCompletedRecord rfl rfl rfl rfl rfl⟩

/- ## Claim C2 -/

/-- C2 counterexample: the record of `job1` is terminal (`completed`), yet a
webhook dispatch carrying the fresh delivery id `w2` whose provider
retrieval fails rewrites it to `failed` — a terminal record changed beyond
appending to `processedWebhookIds`. -/
theorem claim2_counterexample :
    exCompletedRecord.status = some "completed" ∧
    isFinalStatus exCompletedRecord.status = true ∧
    (storeGet (runWebhook exCtx exStore exHeadersFreshId "body").2.1 "job1").map
        (fun r => r.status) = some (some "failed") :=
  ⟨rfl, rfl, rfl⟩

/-- C2 amended: a terminal record is protected from cancellation (the
terminal short-circuit neither writes the store nor calls the provider) and
from a webhook dispatch whose delivery id is already in the ledger (no store
write); but a webhook dispatch carrying a fresh or absent delivery id may
still rewrite a terminal record. -/
theorem claim2_terminal_protection :
    (∀ (store : Store) (jobId : String) (record : JobRecord)
        (cancelStatus : Option String) (now : Int),
        jobId ≠ "" → storeGet store jobId = some record →
        isFinalStatus record.status = true →
        (cancelJob store (some jobId) cancelStatus now).2.1 = store ∧
        (cancelJob store (some jobId) cancelStatus now).2.2 = false) ∧
    (∀ (ctx : RunCtx) (store : Store) (headersRaw : Headers) (rawBody : String)
        (secret : String) (ev : JValue) (jobId wid : String)
        (record : JobRecord),
        ctx.secret = some secret →
        unwrapWebhookEvent ctx.hmac ctx.jsonParse ctx.nowSeconds rawBody
            (normaliseHeaders headersRaw) secret = .ok ev →
        runJobId ev = some jobId →
        hGet (normaliseHeaders headersRaw) "webhook-id" = some wid →
        wid ≠ "" →
        storeGet store jobId = some record →
        wid ∈ record.processedWebhookIds →
        (runWebhook ctx store headersRaw rawBody).2.1 = store) := by
  constructor
  · intro store jobId record cancelStatus now hjid hg hfin
    have h := cancelJob_terminal_eq store jobId record cancelStatus now hjid hg hfin
    rw [h]
    exact ⟨rfl, rfl⟩
  · intro ctx store headersRaw rawBody secret ev jobId wid record hsec hu hid
      hw hne hg hmem
    rw [runWebhook_duplicate_acks ctx store headersRaw rawBody secret ev jobId
      wid record hsec hu hid hw hne hg hmem]

/-- C2 witness: both protection clauses at the concrete settled job. -/
theorem claim2_witness :
    ("job1" ≠ "" ∧ storeGet exStore "job1" = some exCompletedRecord ∧
      isFinalStatus exCompletedRecord.status = true) ∧
    ((cancelJob exStore (some "job1") none 7).2.1 = exStore ∧
     (cancelJob exStore (some "job1") none 7).2.2 = false) ∧
    (runWebhook exCtx exStore exHeadersDupId "body").2.1 = exStore :=
  ⟨⟨by decide, rfl, rfl⟩,
   claim2_terminal_protection.1 exStore "job1" exCompletedRecord none 7
     (by decide) rfl rfl,
   claim2_terminal_protection.2 exCtx exStore exHeadersDupId "body" "sec"
     exParsedEvent "job1" "w1" exCompletedRecord rfl rfl rfl rfl
     (by decide) rfl (by decide)⟩

/- ## Claim C4 -/

/-- C4: the callback ingress returns 401 (with no store access) when no
secret is configured, 400 with no Job-Store read or write when verification
or body parsing fails, and 200 for every other outcome. -/
theorem claim4_response_codes (ctx : RunCtx) (store : Store)
    (headersRaw : Headers) (rawBody : String) :
    (ctx.secret = none →
      runWebhook ctx store headersRaw rawBody =
        ({ statusCode := 401, body := "Webhook secret not configured" },
         store, [])) ∧
    (∀ (secret e : String), ctx.secret = some secret →
      unwrapWebhookEvent ctx.hmac ctx.jsonParse ctx.nowSeconds rawBody
          (normaliseHeaders headersRaw) secret = .error e →
      runWebhook ctx store headersRaw rawBody =
        ({ statusCode := 400, body := "Invalid webhook signature" },
         store, [])) ∧
    (∀ (secret : String) (ev : JValue), ctx.secret = some secret →
      unwrapWebhookEvent ctx.hmac ctx.jsonParse ctx.nowSeconds rawBody
          (normaliseHeaders headersRaw) secret = .ok ev →
      (runWebhook ctx store headersRaw rawBody).1.statusCode = 200) := by
  refine ⟨?_, ?_, ?_⟩
  · intro h
    simp [runWebhook, h]
  · intro secret e hsec hu
    simp [runWebhook, hsec, hu]
  · intro secret ev hsec hu
    cases hid : runJobId ev with
    | none => simp [runWebhook, hsec, hu, hid]
    | some jobId =>
      cases hg : storeGet store jobId with
      | none => simp [runWebhook, hsec, hu, hid, hg]
      | some record =>
        cases hr : ctx.retrieve jobId with
        | error msg =>
          simp only [runWebhook, hsec, hu, hid, hg, hr]
          split <;> rfl
        | ok payload =>
          simp only [runWebhook, hsec, hu, hid, hg, hr]
          split
          · rfl
          · split <;> rfl

/-- C4 witness: the three clauses at concrete inputs — a missing secret, a
header set with no signature headers (verification failure), and the signed
duplicate delivery (a 200 outcome). -/
theorem claim4_witness :
    (({ exCtx with secret := none } : RunCtx).secret = none ∧
      runWebhook { exCtx with secret := none } exStore exHeadersDupId "body" =
        ({ statusCode := 401, body := "Webhook secret not configured" },
         exStore, [])) ∧
    (unwrapWebhookEvent exCtx.hmac exCtx.jsonParse exCtx.nowSeconds "body"
        (normaliseHeaders []) "sec" = .error "Missing webhook signature headers." ∧
      runWebhook exCtx exStore [] "body" =
        ({ statusCode := 400, body := "Invalid webhook signature" },
         exStore, [])) ∧
    (runWebhook exCtx exStore exHeadersDupId "body").1.statusCode = 200 :=
  ⟨⟨rfl,
    (claim4_response_codes { exCtx with secret := none } exStore exHeadersDupId
      "body").1 rfl⟩,
   ⟨rfl,
    (claim4_response_codes exCtx exStore [] "body").2.1 "sec"
      "Missing webhook signature headers." rfl rfl⟩,
   (claim4_response_codes exCtx exStore exHeadersDupId "body").2.2 "sec"
     exParsedEvent rfl rfl⟩

/- ## Claim C8 -/

theorem optionMap_safeClone (v : Option JValue) : v.map safeClone = v := by
  cases v <;> rfl

theorem listMap_safeClone (a : List (String × JValue)) :
    a.map (fun p => (p.1, safeClone p.2)) = a := by
  simp [safeClone]

/-- C8: the store's update loads the existing record or synthesizes a
minimal shell, shallow-merges the supplied fields, deep-replaces
`result`/`error`/`llmCharacters`/`vectorStats` when supplied, merges
`auxiliaryData` with the existing entries (the update's keys winning),
always sets `updatedAt` to the current time, persists, and returns the
merged record. -/
theorem claim8_update_contract (store : Store) (jobId : String)
    (u : JobUpdates) (now : Int) :
    ((updateJobRecord store jobId u now).2 =
        storeSet store jobId (updateJobRecord store jobId u now).1 ∧
      storeGet (updateJobRecord store jobId u now).2 jobId =
        some (updateJobRecord store jobId u now).1) ∧
    (updateJobRecord store jobId u now).1.updatedAt = some now ∧
    ((∀ s, u.status = some s → s ≠ "" →
        (updateJobRecord store jobId u now).1.status = some s) ∧
      (u.status = none →
        (updateJobRecord store jobId u now).1.status =
          ((storeGet store jobId).getD (shellRecord jobId now)).status)) ∧
    ((∀ v, u.result = some v → (updateJobRecord store jobId u now).1.result = v) ∧
      (u.result = none →
        (updateJobRecord store jobId u now).1.result =
          ((storeGet store jobId).getD (shellRecord jobId now)).result)) ∧
    ((∀ v, u.error = some v → (updateJobRecord store jobId u now).1.error = v) ∧
      (u.error = none →
        (updateJobRecord store jobId u now).1.error =
          ((storeGet store jobId).getD (shellRecord jobId now)).error)) ∧
    ((∀ v, u.llmCharacters = some v →
        (updateJobRecord store jobId u now).1.llmCharacters = v) ∧
      (u.llmCharacters = none →
        (updateJobRecord store jobId u now).1.llmCharacters =
          ((storeGet store jobId).getD (shellRecord jobId now)).llmCharacters)) ∧
    ((∀ v, u.vectorStats = some v →
        (updateJobRecord store jobId u now).1.vectorStats = v) ∧
      (u.vectorStats = none →
        (updateJobRecord store jobId u now).1.vectorStats =
          ((storeGet store jobId).getD (shellRecord jobId now)).vectorStats)) ∧
    ((∀ a k, u.auxiliaryData = some a →
        lookupLast ((updateJobRecord store jobId u now).1.auxiliaryData.getD []) k =
          (match lookupLast a k with
           | some v => some v
           | none =>
             lookupLast
               (((storeGet store jobId).getD
                   (shellRecord jobId now)).auxiliaryData.getD []) k)) ∧
      (u.auxiliaryData = none →
        (updateJobRecord store jobId u now).1.auxiliaryData =
          ((storeGet store jobId).getD (shellRecord jobId now)).auxiliaryData)) ∧
    (storeGet store jobId = none →
      (updateJobRecord store jobId u now).1.jobId = jobId ∧
      (updateJobRecord store jobId u now).1.createdAt = now ∧
      (u.processedWebhookIds = none →
        (updateJobRecord store jobId u now).1.processedWebhookIds = [])) ∧
    (∀ rec, storeGet store jobId = some rec →
      (updateJobRecord store jobId u now).1.jobId = rec.jobId ∧
      (updateJobRecord store jobId u now).1.createdAt = rec.createdAt ∧
      (updateJobRecord store jobId u now).1.jobType = rec.jobType ∧
      (updateJobRecord store jobId u now).1.expiresAt = rec.expiresAt) := by
  refine ⟨⟨rfl, storeGet_storeSet_self _ _ _⟩, rfl, ⟨?_, ?_⟩, ⟨?_, ?_⟩, ⟨?_, ?_⟩,
    ⟨?_, ?_⟩, ⟨?_, ?_⟩, ⟨?_, ?_⟩, ?_, ?_⟩
  · intro s hs hne
    simp [updateJobRecord, hs, hne]
  · intro hs
    simp [updateJobRecord, hs]
  · intro v hv
    simp [updateJobRecord, hv, optionMap_safeClone]
  · intro hv
    simp [updateJobRecord, hv]
  · intro v hv
    simp [updateJobRecord, hv, optionMap_safeClone]
  · intro hv
    simp [updateJobRecord, hv]
  · intro v hv
    simp [updateJobRecord, hv, optionMap_safeClone]
  · intro hv
    simp [updateJobRecord, hv]
  · intro v hv
    simp [updateJobRecord, hv, optionMap_safeClone]
  · intro hv
    simp [updateJobRecord, hv]
  · intro a k ha
    simp only [updateJobRecord, ha, Option.getD_some, listMap_safeClone]
    rw [lookupLast_append]
    cases lookupLast a k <;> rfl
  · intro ha
    simp [updateJobRecord, ha]
  · intro hg
    refine ⟨by simp [updateJobRecord, hg, shellRecord],
      by simp [updateJobRecord, hg, shellRecord],
      fun hp => by simp [updateJobRecord, hg, hp, shellRecord]⟩
  · intro rec hg
    simp [updateJobRecord, hg]

/-- C8 witness: the contract's clauses at a concrete record and a concrete
update touching `status`, `result` and `auxiliaryData`. -/
theorem claim8_witness :
    (storeGet exAuxStore "u1" = some exAuxRecord ∧
      exUpdateFields.status = some "failed" ∧
      exUpdateFields.auxiliaryData = some [("b", .str "3"), ("c", .str "4")]) ∧
    ((updateJobRecord exAuxStore "u1" exUpdateFields 9).1.updatedAt = some 9 ∧
     (updateJobRecord exAuxStore "u1" exUpdateFields 9).1.status = some "failed" ∧
     (updateJobRecord exAuxStore "u1" exUpdateFields 9).1.result =
       some (.str "payload") ∧
     lookupLast
         ((updateJobRecord exAuxStore "u1" exUpdateFields 9).1.auxiliaryData.getD [])
         "b" =
       (match lookupLast [("b", JValue.str "3"), ("c", JValue.str "4")] "b" with
        | some v => some v
        | none =>
          lookupLast
            (((storeGet exAuxStore "u1").getD
                (shellRecord "u1" 9)).auxiliaryData.getD []) "b") ∧
     storeGet (updateJobRecord exAuxStore "u1" exUpdateFields 9).2 "u1" =
       some (updateJobRecord exAuxStore "u1" exUpdateFields 9).1) :=
  ⟨⟨rfl, rfl, rfl⟩,
   (claim8_update_contract exAuxStore "u1" exUpdateFields 9).2.1,
   (claim8_update_contract exAuxStore "u1" exUpdateFields 9).2.2.1.1 "failed"
     rfl (by decide),
   (claim8_update_contract exAuxStore "u1" exUpdateFields 9).2.2.2.1.1
     (some (.str "payload")) rfl,
   (claim8_update_contract exAuxStore "u1" exUpdateFields 9).2.2.2.2.2.2.2.1.1
     [("b", .str "3"), ("c", .str "4")] "b" rfl,
   (claim8_update_contract exAuxStore "u1" exUpdateFields 9).1.2⟩

/- ## Claim C1 -/

/-- With only the provider-native signature header present, verification
succeeds exactly when that scheme verifies. -/
theorem verify_single_openai (hmac : Hmac) (now : Int) (rawBody : String)
    (headers : Headers) (secret h : String)
    (hoa : findTruthyHeader headers ["x-openai-signature", "openai-signature"] =
      some h)
    (hsv : findTruthyHeader headers ["svix-signature"] = none)
    (hst : findTruthyHeader headers ["webhook-signature"] = none) :
    verifyWebhookSignature hmac now rawBody headers secret = .ok () ↔
      tryOpenAiScheme hmac now secret rawBody h = .ok true := by
  simp only [verifyWebhookSignature, hoa, hsv, hst]
  rw [if_neg (by simp)]
  cases hr : tryOpenAiScheme hmac now secret rawBody h with
  | error e => simp [hr]
  | ok v => cases v <;> simp [hr]

/-- With only the Svix signature header present, verification succeeds
exactly when the Svix scheme verifies. -/
theorem verify_single_svix (hmac : Hmac) (now : Int) (rawBody : String)
    (headers : Headers) (secret h : String)
    (hoa : findTruthyHeader headers ["x-openai-signature", "openai-signature"] =
      none)
    (hsv : findTruthyHeader headers ["svix-signature"] = some h)
    (hst : findTruthyHeader headers ["webhook-signature"] = none) :
    verifyWebhookSignature hmac now rawBody headers secret = .ok () ↔
      trySvixScheme hmac now secret rawBody headers h = .ok true := by
  simp only [verifyWebhookSignature, hoa, hsv, hst]
  rw [if_neg (by simp)]
  cases hr : trySvixScheme hmac now secret rawBody headers h with
  | error e => simp [hr]
  | ok v => cases v <;> simp [hr]

/-- With only the Standard signature header present, verification succeeds
exactly when the Standard scheme verifies. -/
theorem verify_single_standard (hmac : Hmac) (now : Int) (rawBody : String)
    (headers : Headers) (secret h : String)
    (hoa : findTruthyHeader headers ["x-openai-signature", "openai-signature"] =
      none)
    (hsv : findTruthyHeader headers ["svix-signature"] = none)
    (hst : findTruthyHeader headers ["webhook-signature"] = some h) :
    verifyWebhookSignature hmac now rawBody headers secret = .ok () ↔
      tryStandardScheme hmac now secret rawBody headers h
        (findTruthyHeader headers ["webhook-id"]) = .ok true := by
  simp only [verifyWebhookSignature, hoa, hsv, hst]
  rw [if_neg (by simp)]
  cases hr : tryStandardScheme hmac now secret rawBody headers h
      (findTruthyHeader headers ["webhook-id"]) with
  | error e => simp [hr]
  | ok v => cases v <;> simp [hr]

/-- The provider-native scheme verifies exactly under the parse, recency and
base64-or-hex digest-match conditions. -/
theorem tryOpenAi_ok_true_iff (hmac : Hmac) (now : Int)
    (secret rawBody h : String) :
    tryOpenAiScheme hmac now secret rawBody h = .ok true ↔
      ∃ t sigs, parseOpenAiSignature h = some (t, sigs) ∧
        (now - t).natAbs ≤ SIGNATURE_TOLERANCE_SECONDS ∧
        matchesSignature hmac (strBytes secret)
          (intToStr t ++ "." ++ rawBody) sigs = true := by
  unfold tryOpenAiScheme
  cases hp : parseOpenAiSignature h with
  | none => simp
  | some pr =>
    obtain ⟨t, sigs⟩ := pr
    by_cases ht : (now - t).natAbs > SIGNATURE_TOLERANCE_SECONDS
    · simp only [if_pos ht]
      constructor
      · intro hc
        simp at hc
      · rintro ⟨t', sigs', he, htol, -⟩
        obtain ⟨rfl, rfl⟩ : t = t' ∧ sigs = sigs' := by simpa using he
        omega
    · have ht' : (now - t).natAbs ≤ SIGNATURE_TOLERANCE_SECONDS :=
        Nat.not_lt.mp ht
      simp only [if_neg ht, Except.ok.injEq, Option.some.injEq, Prod.mk.injEq]
      constructor
      · intro hm
        exact ⟨t, sigs, ⟨rfl, rfl⟩, ht', hm⟩
      · rintro ⟨t', sigs', ⟨rfl, rfl⟩, -, hm⟩
        exact hm

/-- The Svix comparison (explicit length check plus `timingSafeEqual`) is
exactly equality of the decoded candidate with the digest. -/
theorem svixAny_eq (signatures : List String) (computed : List Nat) :
    (signatures.any (fun signature =>
      match base64Decode signature with
      | some provided => provided.length == computed.length && provided == computed
      | none => false)) =
    (signatures.any (fun signature =>
      decide (base64Decode signature = some computed))) := by
  induction signatures with
  | nil => rfl
  | cons s rest ih =>
    simp only [List.any_cons, ih]
    congr 1
    cases hb : base64Decode s with
    | none => simp
    | some p =>
      by_cases hp : p = computed
      · simp [hp]
      · simp [hp]

/-- The Svix scheme verifies exactly under the parse, header-presence,
recency, key-decode and base64-only digest-match conditions. -/
theorem trySvix_ok_true_iff (hmac : Hmac) (now : Int)
    (secret rawBody : String) (headers : Headers) (h : String) :
    trySvixScheme hmac now secret rawBody headers h = .ok true ↔
      ∃ sigs tsH idH t key, parseSvixSignature h = some sigs ∧
        findTruthyHeader headers
          ["svix-timestamp", "x-openai-timestamp", "openai-timestamp"] =
          some tsH ∧
        truthyS (hGet headers "svix-id") = some idH ∧
        jsNumber tsH = some t ∧
        (now - t).natAbs ≤ SIGNATURE_TOLERANCE_SECONDS ∧
        base64Decode (stripWhsec secret) = some key ∧ key ≠ [] ∧
        sigs.any (fun signature =>
          decide (base64Decode signature =
            some (hmac key (idH ++ "." ++ tsH ++ "." ++ rawBody)))) = true := by
  unfold trySvixScheme
  cases hp : parseSvixSignature h with
  | none => simp [hp]
  | some sigs =>
    cases hts : findTruthyHeader headers
        ["svix-timestamp", "x-openai-timestamp", "openai-timestamp"] with
    | none => simp [hts]
    | some tsH =>
      cases hid : truthyS (hGet headers "svix-id") with
      | none => simp [hid]
      | some idH =>
        dsimp only
        cases hn : jsNumber tsH with
        | none =>
          constructor
          · intro hc
            simp at hc
          · rintro ⟨sigs', tsH', idH', t', key, he, hts', hid', hn', -, -, -, -⟩
            obtain rfl : tsH = tsH' := by simpa using hts'
            rw [hn] at hn'
            simp at hn'
        | some t =>
          by_cases ht : (now - t).natAbs > SIGNATURE_TOLERANCE_SECONDS
          · simp only [if_pos ht]
            constructor
            · intro hc
              simp at hc
            · rintro ⟨sigs', tsH', idH', t', key, he, hts', hid', hn', htol, -⟩
              obtain rfl : tsH = tsH' := by simpa using hts'
              rw [hn] at hn'
              obtain rfl : t = t' := by simpa using hn'
              omega
          · have ht' : (now - t).natAbs ≤ SIGNATURE_TOLERANCE_SECONDS :=
              Nat.not_lt.mp ht
            simp only [if_neg ht]
            cases hk : base64Decode (stripWhsec secret) with
            | none =>
              simp only [Option.getD_none, if_pos rfl]
              constructor
              · intro hc
                simp at hc
              · rintro ⟨sigs', tsH', idH', t', key, -, -, -, -, -, hk', -⟩
                simp at hk'
            | some key =>
              by_cases hke : key = []
              · subst hke
                simp only [Option.getD_some, if_pos rfl]
                constructor
                · intro hc
                  simp at hc
                · rintro ⟨sigs', tsH', idH', t', key', -, -, -, -, -, hk', hne, -⟩
                  obtain rfl : key' = [] := by simpa using hk'.symm
                  exact (hne rfl).elim
              · simp only [Option.getD_some, if_neg hke, Except.ok.injEq,
                  svixAny_eq]
                constructor
                · intro hm
                  exact ⟨sigs, tsH, idH, t, key, rfl, rfl, rfl, hn, ht', rfl,
                    hke, hm⟩
                · rintro ⟨sigs', tsH', idH', t', key', he, hts', hid', hn',
                    -, hk', -, hm⟩
                  obtain rfl : sigs = sigs' := by simpa using he
                  obtain rfl : tsH = tsH' := by simpa using hts'
                  obtain rfl : idH = idH' := by simpa using hid'
                  obtain rfl : key = key' := by simpa using hk'
                  exact hm

/-- The Standard scheme verifies exactly under the parse, header-presence,
recency, key-derivation and base64-or-hex digest-match conditions. -/
theorem tryStandard_ok_true_iff (hmac : Hmac) (now : Int)
    (secret rawBody : String) (headers : Headers) (h : String)
    (webhookIdHeader : Option String) :
    tryStandardScheme hmac now secret rawBody headers h webhookIdHeader =
        .ok true ↔
      ∃ sigs tsH idH t key, parseStandardSignature h = some sigs ∧
        findTruthyHeader headers
          ["webhook-timestamp", "svix-timestamp", "x-openai-timestamp",
           "openai-timestamp"] = some tsH ∧
        truthyS webhookIdHeader = some idH ∧
        jsNumber tsH = some t ∧
        (now - t).natAbs ≤ SIGNATURE_TOLERANCE_SECONDS ∧
        deriveStandardSecretKey secret = some key ∧
        matchesSignature hmac key (idH ++ "." ++ tsH ++ "." ++ rawBody) sigs =
          true := by
  unfold tryStandardScheme
  cases hp : parseStandardSignature h with
  | none => simp [hp]
  | some sigs =>
    cases hts : findTruthyHeader headers
        ["webhook-timestamp", "svix-timestamp", "x-openai-timestamp",
         "openai-timestamp"] with
    | none => simp [hts]
    | some tsH =>
      cases hid : truthyS webhookIdHeader with
      | none => simp [hid]
      | some idH =>
        dsimp only
        cases hn : jsNumber tsH with
        | none =>
          constructor
          · intro hc
            simp at hc
          · rintro ⟨sigs', tsH', idH', t', key, he, hts', hid', hn', -, -, -⟩
            obtain rfl : tsH = tsH' := by simpa using hts'
            rw [hn] at hn'
            simp at hn'
        | some t =>
          by_cases ht : (now - t).natAbs > SIGNATURE_TOLERANCE_SECONDS
          · simp only [if_pos ht]
            constructor
            · intro hc
              simp at hc
            · rintro ⟨sigs', tsH', idH', t', key, he, hts', hid', hn', htol, -⟩
              obtain rfl : tsH = tsH' := by simpa using hts'
              rw [hn] at hn'
              obtain rfl : t = t' := by simpa using hn'
              omega
          · have ht' : (now - t).natAbs ≤ SIGNATURE_TOLERANCE_SECONDS :=
              Nat.not_lt.mp ht
            simp only [if_neg ht]
            cases hk : deriveStandardSecretKey secret with
            | none =>
              constructor
              · intro hc
                simp at hc
              · rintro ⟨sigs', tsH', idH', t', key, -, -, -, -, -, hk', -⟩
                simp at hk'
            | some key =>
              simp only [Except.ok.injEq]
              constructor
              · intro hm
                exact ⟨sigs, tsH, idH, t, key, rfl, rfl, rfl, hn, ht', rfl, hm⟩
              · rintro ⟨sigs', tsH', idH', t', key', he, hts', hid', hn', -,
                  hk', hm⟩
                obtain rfl : sigs = sigs' := by simpa using he
                obtain rfl : tsH = tsH' := by simpa using hts'
                obtain rfl : idH = idH' := by simpa using hid'
                obtain rfl : key = key' := by simpa using hk'
                exact hm

/-- C1 counterexample: a Svix-scheme callback whose candidate signature is
the hex encoding of the correct digest, with a fresh timestamp.  The claim's
acceptance condition (base64-or-hex decoding with matching byte length for
every scheme) holds, yet the code rejects the callback because its Svix
branch decodes candidates as base64 only. -/
theorem claim1_counterexample :
    claimVerificationAccepts exHmac 100 "body" exHeadersSvixHex "whsec_AAAA" =
      true ∧
    verifyWebhookSignature exHmac 100 "body" exHeadersSvixHex "whsec_AAAA" =
      .error "Webhook signature verification failed." :=
  ⟨rfl, rfl⟩

/-- C1 amended: when no scheme's signature header is present the callback is
rejected; when exactly one scheme's signature header is present,
verification succeeds iff that scheme's headers parse, its timestamp is
within 300 seconds of now, its key derives successfully, and the HMAC digest
over its canonical signed string equals a provided candidate — decoded as
base64 or hex with matching byte length for the provider-native and Standard
schemes, but as base64 only for the Svix scheme. -/
theorem claim1_single_scheme_verification (hmac : Hmac) (now : Int)
    (rawBody : String) (headers : Headers) (secret : String) :
    (findTruthyHeader headers ["x-openai-signature", "openai-signature"] =
        none →
      findTruthyHeader headers ["svix-signature"] = none →
      findTruthyHeader headers ["webhook-signature"] = none →
      verifyWebhookSignature hmac now rawBody headers secret =
        .error "Missing webhook signature headers.") ∧
    (∀ h,
      findTruthyHeader headers ["x-openai-signature", "openai-signature"] =
        some h →
      findTruthyHeader headers ["svix-signature"] = none →
      findTruthyHeader headers ["webhook-signature"] = none →
      (verifyWebhookSignature hmac now rawBody headers secret = .ok () ↔
        ∃ t sigs, parseOpenAiSignature h = some (t, sigs) ∧
          (now - t).natAbs ≤ SIGNATURE_TOLERANCE_SECONDS ∧
          matchesSignature hmac (strBytes secret)
            (intToStr t ++ "." ++ rawBody) sigs = true)) ∧
    (∀ h,
      findTruthyHeader headers ["x-openai-signature", "openai-signature"] =
        none →
      findTruthyHeader headers ["svix-signature"] = some h →
      findTruthyHeader headers ["webhook-signature"] = none →
      (verifyWebhookSignature hmac now rawBody headers secret = .ok () ↔
        ∃ sigs tsH idH t key, parseSvixSignature h = some sigs ∧
          findTruthyHeader headers
            ["svix-timestamp", "x-openai-timestamp", "openai-timestamp"] =
            some tsH ∧
          truthyS (hGet headers "svix-id") = some idH ∧
          jsNumber tsH = some t ∧
          (now - t).natAbs ≤ SIGNATURE_TOLERANCE_SECONDS ∧
          base64Decode (stripWhsec secret) = some key ∧ key ≠ [] ∧
          sigs.any (fun signature =>
            decide (base64Decode signature =
              some (hmac key (idH ++ "." ++ tsH ++ "." ++ rawBody)))) =
            true)) ∧
    (∀ h,
      findTruthyHeader headers ["x-openai-signature", "openai-signature"] =
        none →
      findTruthyHeader headers ["svix-signature"] = none →
      findTruthyHeader headers ["webhook-signature"] = some h →
      (verifyWebhookSignature hmac now rawBody headers secret = .ok () ↔
        ∃ sigs tsH idH t key, parseStandardSignature h = some sigs ∧
          findTruthyHeader headers
            ["webhook-timestamp", "svix-timestamp", "x-openai-timestamp",
             "openai-timestamp"] = some tsH ∧
          truthyS (findTruthyHeader headers ["webhook-id"]) = some idH ∧
          jsNumber tsH = some t ∧
          (now - t).natAbs ≤ SIGNATURE_TOLERANCE_SECONDS ∧
          deriveStandardSecretKey secret = some key ∧
          matchesSignature hmac key (idH ++ "." ++ tsH ++ "." ++ rawBody)
            sigs = true)) := by
  refine ⟨?_, ?_, ?_, ?_⟩
  · intro h1 h2 h3
    simp [verifyWebhookSignature, h1, h2, h3]
  · intro h h1 h2 h3
    exact (verify_single_openai hmac now rawBody headers secret h h1 h2
      h3).trans (tryOpenAi_ok_true_iff hmac now secret rawBody h)
  · intro h h1 h2 h3
    exact (verify_single_svix hmac now rawBody headers secret h h1 h2
      h3).trans (trySvix_ok_true_iff hmac now secret rawBody headers h)
  · intro h h1 h2 h3
    exact (verify_single_standard hmac now rawBody headers secret h h1 h2
      h3).trans (tryStandard_ok_true_iff hmac now secret rawBody headers h
        (findTruthyHeader headers ["webhook-id"]))

/-- C1 witness: the provider-native-only clause at a concrete signed header
set. -/
theorem claim1_witness :
    (findTruthyHeader exHeadersNoId ["x-openai-signature", "openai-signature"] =
        some "t=100,v1=AAAA" ∧
      findTruthyHeader exHeadersNoId ["svix-signature"] = none ∧
      findTruthyHeader exHeadersNoId ["webhook-signature"] = none) ∧
    (verifyWebhookSignature exHmac 100 "body" exHeadersNoId "sec" = .ok () ↔
      ∃ t sigs, parseOpenAiSignature "t=100,v1=AAAA" = some (t, sigs) ∧
        (100 - t).natAbs ≤ SIGNATURE_TOLERANCE_SECONDS ∧
        matchesSignature exHmac (strBytes "sec")
          (intToStr t ++ "." ++ "body") sigs = true) :=
  ⟨⟨rfl, rfl, rfl⟩,
   (claim1_single_scheme_verification exHmac 100 "body" exHeadersNoId
     "sec").2.1 "t=100,v1=AAAA" rfl rfl rfl⟩

end RagCore
